import Mathlib

/-!
Shallow embedding of the NXProjects-tracker Presenter (the browser-side
filter / sort / paginate engine) together with the shared number-formatting
utility, and proofs of the specification claims about them.

Sources embedded here:
* `webapp/js/app.js` — the `NXProjectsTracker` class; the repository ships the
  class both as a standalone file and as the full listing embedded at the end
  of `webapp/README.md`.  The two copies agree verbatim on `loadProjects`,
  `filterProjects`, `updateStats` and `formatNumber`; the pagination fields and
  methods (`itemsPerPage`, `renderPagination`, `goToPage`, the page reset in
  `filterAndRender`, the page slice in `renderProjects`) appear in the copy
  embedded in `webapp/README.md`.
* `webapp/js/utils.js` — `NumberUtils.format`.

Modelling conventions:
* JavaScript strings are Lean `String`s; `toLowerCase` lower-cases each
  character (the sources only ever compare ASCII data).
* `String.prototype.includes` is the list-infix test on the character lists.
* The optional `description` field is an `Option String`; JavaScript
  truthiness of a string ("present and non-empty") is made explicit.
* The ISO-8601 `lastUpdated` / `createdAt` strings are represented by the
  integer timestamps `new Date(...)` turns them into, since the code only
  ever subtracts them.
* `Array.prototype.sort` with a comparator `cmp` is (since ES2019) a stable
  sort with respect to the total preorder `cmp a b ≤ 0`; it is modelled by
  `List.insertionSort`, which Mathlib proves to be a stable sort.  For a
  total, transitive comparator the stable sorted permutation is unique, so
  any stable sort is an exact model.
* `String.prototype.localeCompare` is modelled by code-point comparison
  (every claim proved below is independent of the collation order).
-/

namespace NXProjectsTracker

/-- One project record of `projects.json`, restricted to the fields the
filter / sort / statistics code reads.  `description` is optional in the
artifact; `language` uses `""` for a repository without a detected language
(JSON `null` / empty), matching what the truthiness tests in the code see. -/
structure Project where
  name : String
  author : String
  description : Option String
  language : String
  stars : Nat
  forks : Nat
  lastUpdated : Int
  createdAt : Int
deriving DecidableEq

/-- The mutable filter state `this.currentFilters` of the class. -/
structure Filters where
  search : String
  language : String
  sortBy : String
deriving DecidableEq

/-- The instance state of `NXProjectsTracker` that the engine reads and
writes: the full collection, the filtered view, the filter state and the
current page. -/
structure TrackerState where
  projects : List Project
  filteredProjects : List Project
  currentFilters : Filters
  currentPage : Nat
deriving DecidableEq

/-- Model of `String.prototype.toLowerCase`: lower-case every character.
(Structurally recursive counterpart of `String.toLower`; the sources only
lower-case ASCII repository names, logins and descriptions.) -/
def jsToLower (s : String) : String :=
  String.mk (s.toList.map Char.toLower)

/-- Substring test on character lists: does `pat` occur contiguously in the
second list?  Helper for `jsIncludes`. -/
def hasInfix (pat : List Char) : List Char → Bool
  | [] => pat.isEmpty
  | c :: rest => pat.isPrefixOf (c :: rest) || hasInfix pat rest

/-- Model of `s.includes(pat)` (JavaScript substring test). -/
def jsIncludes (s pat : String) : Bool :=
  hasInfix pat.toList s.toList

/-- The third disjunct of the search predicate:
`project.description && project.description.toLowerCase().includes(searchTerm)`.
The conjunction with truthiness of `description` is explicit: an absent or
empty description never matches. -/
def descriptionMatches (searchTerm : String) (p : Project) : Bool :=
  match p.description with
  | some d => d ≠ "" && jsIncludes (jsToLower d) searchTerm
  | none => false

/-- The predicate passed to `filtered.filter` in the search branch of
`filterProjects`; `searchTerm` is the already-lowercased search string. -/
def matchesSearch (searchTerm : String) (p : Project) : Bool :=
  jsIncludes (jsToLower p.name) searchTerm
    || jsIncludes (jsToLower p.author) searchTerm
    || descriptionMatches searchTerm p

/-- The search stage of `filterProjects`:
`if (this.currentFilters.search) { const searchTerm = ...toLowerCase(); filtered = filtered.filter(...) }`.
JavaScript truthiness of the search string is the non-emptiness test. -/
def applySearchFilter (search : String) (l : List Project) : List Project :=
  if search ≠ "" then l.filter (matchesSearch (jsToLower search)) else l

/-- The language stage of `filterProjects`:
`if (this.currentFilters.language !== 'all') { filtered = filtered.filter(p => p.language === ...) }`. -/
def applyLanguageFilter (language : String) (l : List Project) : List Project :=
  if language ≠ "all" then l.filter (fun p => p.language = language) else l

/-- Model of `String.prototype.localeCompare` as a three-way comparison;
the locale-sensitive collation is abstracted to code-point order (no claim
below depends on which total order it is). -/
def localeCompare (s t : String) : Int :=
  match compare s t with
  | .lt => -1
  | .eq => 0
  | .gt => 1

/-- The comparator of the `switch (this.currentFilters.sortBy)` inside
`filtered.sort((a, b) => ...)`, with the `default` arm returning
`b.stars - a.stars` exactly like the `'stars'` arm. -/
def sortCompare (sortBy : String) (a b : Project) : Int :=
  if sortBy = "stars" then (b.stars : Int) - (a.stars : Int)
  else if sortBy = "forks" then (b.forks : Int) - (a.forks : Int)
  else if sortBy = "name" then localeCompare a.name b.name
  else if sortBy = "author" then localeCompare a.author b.author
  else if sortBy = "latest" then b.lastUpdated - a.lastUpdated
  else if sortBy = "created" then b.createdAt - a.createdAt
  else (b.stars : Int) - (a.stars : Int)

/-- Model of `array.sort(cmp)`: the stable sort for the preorder
`cmp a b ≤ 0` (ES2019 guarantees `Array.prototype.sort` is stable). -/
def sortJS (cmp : Project → Project → Int) (l : List Project) : List Project :=
  l.insertionSort (fun a b => cmp a b ≤ 0)

/-- Embedding of `NXProjectsTracker.filterProjects`: starting from a copy of
the full collection `[...this.projects]`, apply the search filter, then the
language filter, then sort with the comparator selected by `sortBy`, and
store the result in `this.filteredProjects`.  No other field is written. -/
def filterProjects (st : TrackerState) : TrackerState :=
  let filtered := applySearchFilter st.currentFilters.search st.projects
  let filtered := applyLanguageFilter st.currentFilters.language filtered
  let filtered := sortJS (sortCompare st.currentFilters.sortBy) filtered
  { st with filteredProjects := filtered }

/-- `this.itemsPerPage = 12` from the constructor. -/
def itemsPerPage : Nat := 12

/-- `Math.ceil(this.filteredProjects.length / this.itemsPerPage)` from
`renderPagination`, as exact natural arithmetic. -/
def totalPages (filteredLength : Nat) : Nat :=
  (filteredLength + itemsPerPage - 1) / itemsPerPage

/-- The page slice computed in `renderProjects`:
`startIndex = (currentPage - 1) * itemsPerPage`,
`endIndex = startIndex + itemsPerPage`,
`projectsToShow = filteredProjects.slice(startIndex, endIndex)`. -/
def projectsToShow (st : TrackerState) : List Project :=
  let startIndex := (st.currentPage - 1) * itemsPerPage
  (st.filteredProjects.drop startIndex).take itemsPerPage

/-- Embedding of `NXProjectsTracker.filterAndRender`: re-filter from the full
collection, then reset the current page to 1 (the rendering calls that follow
read the state and touch the DOM only). -/
def filterAndRender (st : TrackerState) : TrackerState :=
  let st := filterProjects st
  { st with currentPage := 1 }

/-- The search-input handler: store the new search string in
`currentFilters`, then `filterAndRender`. -/
def onSearchChanged (st : TrackerState) (s : String) : TrackerState :=
  filterAndRender { st with currentFilters := { st.currentFilters with search := s } }

/-- The language-select handler: store the new language, then
`filterAndRender`. -/
def onLanguageChanged (st : TrackerState) (lang : String) : TrackerState :=
  filterAndRender { st with currentFilters := { st.currentFilters with language := lang } }

/-- The sort-select handler: store the new sort key, then `filterAndRender`. -/
def onSortChanged (st : TrackerState) (sb : String) : TrackerState :=
  filterAndRender { st with currentFilters := { st.currentFilters with sortBy := sb } }

/-- Embedding of `NXProjectsTracker.goToPage`: set the current page and
re-render; `filterProjects` is not called, so the filtered list (and the
collection and filter state) are untouched. -/
def goToPage (st : TrackerState) (page : Nat) : TrackerState :=
  { st with currentPage := page }

/-- The aggregate statistics written by `updateStats`. -/
structure Stats where
  totalProjects : Nat
  totalStars : Nat
  totalForks : Nat
  totalLanguages : Nat
deriving DecidableEq

/-- Embedding of `NXProjectsTracker.updateStats`, which reads
`this.projects` (the unfiltered collection): record count, star and fork
sums via `reduce`, and the size of the `Set` of languages that pass the
`filter(Boolean)` truthiness test (non-empty strings). -/
def updateStats (projects : List Project) : Stats :=
  { totalProjects := projects.length
    totalStars := projects.foldl (fun sum p => sum + p.stars) 0
    totalForks := projects.foldl (fun sum p => sum + p.forks) 0
    totalLanguages :=
      (((projects.map (fun p => p.language)).filter (fun l => l ≠ "")).dedup).length }

/-- The statistics shown after a render: `renderProjects` (and `init` /
`retry`) call `this.updateStats()`, which reads `this.projects`, never
`this.filteredProjects`. -/
def renderedStats (st : TrackerState) : Stats :=
  updateStats st.projects

/-- The body obtained from a completed HTTP response in `loadProjects`:
either `response.json()` rejects (malformed JSON), or it yields a document
whose `projects` field is absent (or otherwise falsy) or is an array. -/
inductive JsonBody where
  | malformed
  | valid (projects : Option (List Project))
deriving DecidableEq

/-- The outcome of `fetch('./data/projects.json')` as `loadProjects` can
observe it: the promise rejects (network failure), or a response arrives
with an `ok` flag and a body. -/
inductive FetchOutcome where
  | fetchError
  | response (ok : Bool) (body : JsonBody)
deriving DecidableEq

/-- Embedding of `NXProjectsTracker.loadProjects`: on an ok response with a
well-formed body it stores `data.projects || []`; every throw inside the
`try` (network failure, malformed JSON) is caught, and a non-ok response
falls through the `if`, so all of those paths reach the trailing
`this.projects = []`. -/
def loadProjects (o : FetchOutcome) : List Project :=
  match o with
  | .fetchError => []
  | .response ok body =>
    if ok then
      match body with
      | .malformed => []
      | .valid none => []
      | .valid (some ps) => ps
    else []

/-- Model of the JavaScript expression `(num / den).toFixed(decimals)` for a
non-negative integer `num` and positive divisor `den`: round the exact
rational `num / den` to `decimals` digits, half away from zero, and print
with the fractional part zero-padded.  The double-rounding through binary
floating point is not modelled; the two formatters compared in this file
evaluate the same expression on the same arguments, so the comparison is
insensitive to this abstraction. -/
def jsToFixed (num den decimals : Nat) : String :=
  let p := 10 ^ decimals
  let scaled := (2 * num * p + den) / (2 * den)
  if decimals = 0 then toString scaled
  else
    let fracStr := toString (scaled % p)
    let pad := String.mk (List.replicate (decimals - fracStr.length) (Char.ofNat 48))
    toString (scaled / p) ++ "." ++ pad ++ fracStr

/-- Embedding of `NXProjectsTracker.formatNumber` (the card-level
formatter): `(num/1000000).toFixed(1)+'M'` from one million, else
`(num/1000).toFixed(1)+'K'` from one thousand, else `num.toString()`. -/
def formatNumber (num : Nat) : String :=
  if num ≥ 1000000 then jsToFixed num 1000000 1 ++ "M"
  else if num ≥ 1000 then jsToFixed num 1000 1 ++ "K"
  else toString num

/-- A record constructor for the concrete instances used in the example
conjuncts and witnesses below; the fields not under test are fixed. -/
def sampleProject (name author : String) (description : Option String)
    (language : String) (stars : Nat) : Project :=
  { name := name, author := author, description := description,
    language := language, stars := stars, forks := 0,
    lastUpdated := 0, createdAt := 0 }

/-- A record whose only occurrence of the substring `"atmo"` is in its
description. -/
def atmoProject : Project :=
  sampleProject "SysDVR" "exelix11" (some "atmosphere firmware") "C" 100

/-- The three-record collection of the spec's sorting example, with star
counts 5, 50 and 1. -/
def starsDemo : List Project :=
  [sampleProject "five" "a" none "" 5,
   sampleProject "fifty" "b" none "" 50,
   sampleProject "one" "c" none "" 1]

/-- Twenty-five records (a filtered list for the pagination example); the
record at index `j` is named `toString j`. -/
def pageDemo : List Project :=
  (List.range 25).map (fun j => sampleProject (toString j) "a" none "" 0)

/-- A concrete state for the C2 witness, parametrised by the previous
filtered list: one record, language filter set to "C". -/
def languageDemoState (old : List Project) : TrackerState :=
  { projects := [atmoProject], filteredProjects := old,
    currentFilters := { search := "", language := "C", sortBy := "stars" },
    currentPage := 1 }

/-- A concrete state for the C7 witness, parametrised by the previous
filtered list and the page. -/
def pureDemoState (old : List Project) (page : Nat) : TrackerState :=
  { projects := starsDemo, filteredProjects := old,
    currentFilters := { search := "", language := "all", sortBy := "stars" },
    currentPage := page }

/-- A concrete state on page 3 whose filtered list is the 25-record
`pageDemo`, for the C4 pagination example. -/
def pageDemoState : TrackerState :=
  { projects := pageDemo, filteredProjects := pageDemo,
    currentFilters := { search := "", language := "all", sortBy := "stars" },
    currentPage := 3 }

/-- A concrete state whose sort key is not one of the six recognized
values, for the C6 witness. -/
def unknownSortState : TrackerState :=
  { projects := starsDemo, filteredProjects := [],
    currentFilters := { search := "", language := "all", sortBy := "banana" },
    currentPage := 1 }

end NXProjectsTracker

namespace NumberUtils

/-- Embedding of `NumberUtils.format` from `webapp/js/utils.js`: `null` and
`undefined` (modelled by `none`) print as `"0"`; otherwise a `'B'`, `'M'` or
`'K'` suffix with `decimals` digits from the matching power of ten, else
`num.toString()`.  The default precision of the JavaScript parameter is
`decimals = 1`. -/
def format (num : Option Nat) (decimals : Nat) : String :=
  match num with
  | none => "0"
  | some n =>
    if n ≥ 1000000000 then NXProjectsTracker.jsToFixed n 1000000000 decimals ++ "B"
    else if n ≥ 1000000 then NXProjectsTracker.jsToFixed n 1000000 decimals ++ "M"
    else if n ≥ 1000 then NXProjectsTracker.jsToFixed n 1000 decimals ++ "K"
    else toString n

end NumberUtils

namespace NXProjectsTracker

theorem hasInfix_iff_isInfix (pat l : List Char) :
    hasInfix pat l = true ↔ pat <:+: l := by
  induction l with
  | nil => simp [hasInfix, List.isEmpty_iff]
  | cons c rest ih =>
    simp only [hasInfix, Bool.or_eq_true, List.isPrefixOf_iff_prefix, ih,
      List.infix_cons_iff]

/-- `jsIncludes` decides the mathematical substring relation on the
character lists. -/
theorem jsIncludes_iff_isInfix (s pat : String) :
    jsIncludes s pat = true ↔ pat.toList <:+: s.toList :=
  hasInfix_iff_isInfix pat.toList s.toList

/-- `descriptionMatches` unfolded to an existential over the optional
description. -/
theorem descriptionMatches_iff (t : String) (p : Project) :
    descriptionMatches t p = true ↔
      ∃ d, p.description = some d ∧ d ≠ "" ∧ jsIncludes (jsToLower d) t = true := by
  simp only [descriptionMatches]
  cases hd : p.description with
  | none => simp
  | some d => simp [hd]

/-- The sorting stage is a permutation of its input. -/
theorem sortJS_perm (cmp : Project → Project → Int) (l : List Project) :
    List.Perm (sortJS cmp l) l :=
  List.perm_insertionSort _ l

theorem mem_sortJS (cmp : Project → Project → Int) (l : List Project)
    (p : Project) : p ∈ sortJS cmp l ↔ p ∈ l :=
  (sortJS_perm cmp l).mem_iff

/-- For a transitive and total comparator, the sorting stage sorts by
`cmp · · ≤ 0`. -/
theorem sorted_sortJS (cmp : Project → Project → Int)
    (htrans : ∀ a b c, cmp a b ≤ 0 → cmp b c ≤ 0 → cmp a c ≤ 0)
    (htot : ∀ a b, cmp a b ≤ 0 ∨ cmp b a ≤ 0) (l : List Project) :
    (sortJS cmp l).Sorted (fun a b => cmp a b ≤ 0) :=
  haveI : IsTrans Project (fun a b => cmp a b ≤ 0) := ⟨htrans⟩
  haveI : IsTotal Project (fun a b => cmp a b ≤ 0) := ⟨htot⟩
  List.sorted_insertionSort _ l

/-- Stability of the sorting stage: a class of records that are pairwise
tied under the comparator comes out of the sort in its original relative
order. -/
theorem sortJS_filter_eq (cmp : Project → Project → Int) (q : Project → Bool)
    (hq : ∀ a b, q a = true → q b = true → cmp a b ≤ 0) (l : List Project) :
    (sortJS cmp l).filter q = l.filter q := by
  have hpair : (l.filter q).Pairwise (fun a b => cmp a b ≤ 0) := by
    refine List.pairwise_of_forall_mem_list (fun a ha b hb => ?_)
    exact hq a b (List.mem_filter.mp ha).2 (List.mem_filter.mp hb).2
  have hsub : List.Sublist (l.filter q) (sortJS cmp l) :=
    List.sublist_insertionSort hpair (List.filter_sublist l)
  have hself : (l.filter q).filter q = l.filter q :=
    List.filter_eq_self.mpr (fun a ha => (List.mem_filter.mp ha).2)
  have hsub2 : List.Sublist (l.filter q) ((sortJS cmp l).filter q) := by
    have := hsub.filter q
    rwa [hself] at this
  have hlen : ((sortJS cmp l).filter q).length = (l.filter q).length :=
    ((sortJS_perm cmp l).filter q).length_eq
  exact (hsub2.eq_of_length hlen.symm).symm

/-- Claim C1: with a non-empty search string (and the language filter
disabled at "all"), a record survives `filterProjects` exactly when the
lowercased search string occurs as a substring of the lowercased name, or
of the lowercased author, or — only when a description is present and
non-empty — of the lowercased description.  In particular a record matching
only in its description is kept, and matching is case-insensitive, since
both sides are lowercased. -/
theorem c1_search_filter (projects old : List Project) (page : Nat)
    (s sb : String) (p : Project) (hs : s ≠ "") :
    p ∈ (filterProjects ⟨projects, old, ⟨s, "all", sb⟩, page⟩).filteredProjects
      ↔ p ∈ projects ∧
        ((jsToLower s).toList <:+: (jsToLower p.name).toList ∨
         (jsToLower s).toList <:+: (jsToLower p.author).toList ∨
         ∃ d, p.description = some d ∧ d ≠ "" ∧
           (jsToLower s).toList <:+: (jsToLower d).toList) := by
  simp only [filterProjects, applySearchFilter, applyLanguageFilter]
  rw [if_pos hs, if_neg (by simp)]
  rw [mem_sortJS, List.mem_filter]
  simp only [matchesSearch, Bool.or_eq_true, descriptionMatches_iff,
    jsIncludes_iff_isInfix]
  tauto

/-- Witness for C1: the search string "ATMO" matches a record whose name
and author do not contain it, via the description "atmosphere firmware". -/
theorem c1_search_filter_witness :
    ("ATMO" : String) ≠ "" ∧
      (atmoProject ∈ (filterProjects
          ⟨[atmoProject], [], ⟨"ATMO", "all", "stars"⟩, 1⟩).filteredProjects
        ↔ atmoProject ∈ [atmoProject] ∧
          ((jsToLower "ATMO").toList <:+: (jsToLower atmoProject.name).toList ∨
           (jsToLower "ATMO").toList <:+: (jsToLower atmoProject.author).toList ∨
           ∃ d, atmoProject.description = some d ∧ d ≠ "" ∧
             (jsToLower "ATMO").toList <:+: (jsToLower d).toList)) :=
  ⟨by decide, c1_search_filter [atmoProject] [] 1 "ATMO" "stars" atmoProject (by decide)⟩

/-- Claim C2: when the selected language is not "all", every record kept by
`filterProjects` has exactly the selected language; the language predicate
narrows the list the search stage produced from the full collection
(second conjunct: the output is the sort of the language-filtered search
result); and the result is recomputed from the full collection — the
previous filtered list is irrelevant (third conjunct). -/
theorem c2_language_filter (st : TrackerState)
    (h : st.currentFilters.language ≠ "all") :
    (∀ p ∈ (filterProjects st).filteredProjects,
        p.language = st.currentFilters.language) ∧
    (filterProjects st).filteredProjects
      = sortJS (sortCompare st.currentFilters.sortBy)
          ((applySearchFilter st.currentFilters.search st.projects).filter
            (fun p => p.language = st.currentFilters.language)) ∧
    (∀ old, (filterProjects { st with filteredProjects := old }).filteredProjects
        = (filterProjects st).filteredProjects) := by
  refine ⟨fun p hp => ?_, ?_, fun old => rfl⟩
  · have := (List.mem_filter.mp
      ((mem_sortJS _ _ p).mp (by
        simpa only [filterProjects, applyLanguageFilter, if_pos h] using hp))).2
    simpa using this
  · simp only [filterProjects, applyLanguageFilter, if_pos h]

/-- Witness for C2. -/
theorem c2_language_filter_witness :
    ((languageDemoState []).currentFilters.language ≠ "all") ∧
      ((∀ p ∈ (filterProjects (languageDemoState [])).filteredProjects,
          p.language = (languageDemoState []).currentFilters.language) ∧
       (filterProjects (languageDemoState [])).filteredProjects
          = sortJS (sortCompare (languageDemoState []).currentFilters.sortBy)
              ((applySearchFilter (languageDemoState []).currentFilters.search
                  (languageDemoState []).projects).filter
                (fun p => p.language = (languageDemoState []).currentFilters.language)) ∧
       (∀ old, (filterProjects
            { languageDemoState [] with filteredProjects := old }).filteredProjects
          = (filterProjects (languageDemoState [])).filteredProjects)) :=
  ⟨by decide, c2_language_filter (languageDemoState []) (by decide)⟩

/-- Claim C7: `filterProjects` is a pure, deterministic function of the
pair (collection, filter state): two states that agree on the collection
and the filter state — however much they differ in the previously filtered
list or the current page — produce element-for-element identical filtered
arrays. -/
theorem c7_filter_deterministic (s1 s2 : TrackerState)
    (hp : s1.projects = s2.projects)
    (hf : s1.currentFilters = s2.currentFilters) :
    (filterProjects s1).filteredProjects = (filterProjects s2).filteredProjects := by
  simp only [filterProjects, hp, hf]

/-- Witness for C7: two states with the same collection and filters but
different previous filtered lists and pages. -/
theorem c7_filter_deterministic_witness :
    (pureDemoState [] 1).projects = (pureDemoState starsDemo 7).projects ∧
    (pureDemoState [] 1).currentFilters = (pureDemoState starsDemo 7).currentFilters ∧
    (filterProjects (pureDemoState [] 1)).filteredProjects
      = (filterProjects (pureDemoState starsDemo 7)).filteredProjects :=
  ⟨by decide, by decide,
    c7_filter_deterministic (pureDemoState [] 1) (pureDemoState starsDemo 7)
      (by decide) (by decide)⟩

/-- Claim C9: `filterProjects` never mutates the underlying collection (it
sorts a copy): the `projects` field of the state is unchanged, and in fact
the whole state except the `filteredProjects` field is unchanged. -/
theorem c9_filter_frame (st : TrackerState) :
    (filterProjects st).projects = st.projects ∧
    filterProjects st
      = { st with filteredProjects := (filterProjects st).filteredProjects } :=
  ⟨rfl, rfl⟩

/-- The "stars" comparator orders by descending star count. -/
theorem sortCompare_stars_le (a b : Project) :
    sortCompare "stars" a b ≤ 0 ↔ b.stars ≤ a.stars := by
  rw [sortCompare, if_pos rfl]
  omega

/-- Claim C3: with the default sort key "stars", the filtered list comes
out ordered by descending star count; the sort is stable — for every star
count the records with that count appear in the same relative order as in
the (filtered, unsorted) input; and on the three-record collection with
star counts 5, 50, 1 the resulting star counts are [50, 5, 1]. -/
theorem c3_sort_stars (st : TrackerState)
    (h : st.currentFilters.sortBy = "stars") :
    ((filterProjects st).filteredProjects).Sorted (fun a b => b.stars ≤ a.stars) ∧
    (∀ k : Nat, ((filterProjects st).filteredProjects).filter (fun p => p.stars = k)
        = (applyLanguageFilter st.currentFilters.language
            (applySearchFilter st.currentFilters.search st.projects)).filter
            (fun p => p.stars = k)) ∧
    ((filterProjects
        { projects := starsDemo, filteredProjects := [],
          currentFilters := { search := "", language := "all", sortBy := "stars" },
          currentPage := 1 }).filteredProjects.map (fun p => p.stars)) = [50, 5, 1] := by
  refine ⟨?_, fun k => ?_, by decide⟩
  · simp only [filterProjects, h]
    refine (sorted_sortJS _ (fun a b c hab hbc => ?_) (fun a b => ?_) _).imp
      (fun hab => (sortCompare_stars_le _ _).mp hab)
    · exact (sortCompare_stars_le a c).mpr
        (le_trans ((sortCompare_stars_le b c).mp hbc) ((sortCompare_stars_le a b).mp hab))
    · rcases Nat.le_total b.stars a.stars with h' | h'
      · exact Or.inl ((sortCompare_stars_le a b).mpr h')
      · exact Or.inr ((sortCompare_stars_le b a).mpr h')
  · simp only [filterProjects, h]
    refine sortJS_filter_eq _ _ (fun a b ha hb => ?_) _
    have ha' : a.stars = k := of_decide_eq_true ha
    have hb' : b.stars = k := of_decide_eq_true hb
    exact (sortCompare_stars_le a b).mpr (by omega)

/-- Witness for C3, at the concrete three-record collection. -/
theorem c3_sort_stars_witness :
    ((pureDemoState [] 1).currentFilters.sortBy = "stars") ∧
      (((filterProjects (pureDemoState [] 1)).filteredProjects).Sorted
          (fun a b => b.stars ≤ a.stars) ∧
       (∀ k : Nat, ((filterProjects (pureDemoState [] 1)).filteredProjects).filter
            (fun p => p.stars = k)
          = (applyLanguageFilter (pureDemoState [] 1).currentFilters.language
              (applySearchFilter (pureDemoState [] 1).currentFilters.search
                (pureDemoState [] 1).projects)).filter (fun p => p.stars = k)) ∧
       ((filterProjects
          { projects := starsDemo, filteredProjects := [],
            currentFilters := { search := "", language := "all", sortBy := "stars" },
            currentPage := 1 }).filteredProjects.map (fun p => p.stars)) = [50, 5, 1]) :=
  ⟨by decide, c3_sort_stars (pureDemoState [] 1) (by decide)⟩

/-- Claim C4: pagination in the Presenter.  The page count is the ceiling
of filtered length over `itemsPerPage` (first conjunct characterises
`totalPages n` as the least `m` with `n ≤ m * itemsPerPage`); the slice
shown for page `p` is the index interval from `(p-1)*itemsPerPage`
(inclusive) to `p*itemsPerPage` (exclusive) of the filtered list (second
conjunct, element by element); with `itemsPerPage = 12` and 25 filtered
records there are 3 pages and page 3 shows exactly the one record of index
24; the search, language and sort handlers all reset the current page to 1;
and `goToPage` changes the page without re-filtering — the filtered list,
the collection and the filter state are untouched. -/
theorem c4_pagination :
    (∀ n : Nat, n ≤ totalPages n * itemsPerPage ∧
        ∀ m : Nat, n ≤ m * itemsPerPage → totalPages n ≤ m) ∧
    (∀ (st : TrackerState) (i : Nat),
        (projectsToShow st)[i]? =
          if i < itemsPerPage
          then st.filteredProjects[(st.currentPage - 1) * itemsPerPage + i]?
          else none) ∧
    pageDemo.length = 25 ∧
    totalPages pageDemo.length = 3 ∧
    projectsToShow pageDemoState = [sampleProject "24" "a" none "" 0] ∧
    pageDemo[24]? = some (sampleProject "24" "a" none "" 0) ∧
    (∀ st s, (onSearchChanged st s).currentPage = 1) ∧
    (∀ st lang, (onLanguageChanged st lang).currentPage = 1) ∧
    (∀ st sb, (onSortChanged st sb).currentPage = 1) ∧
    (∀ st page, (goToPage st page).filteredProjects = st.filteredProjects ∧
        (goToPage st page).projects = st.projects ∧
        (goToPage st page).currentFilters = st.currentFilters) := by
  refine ⟨fun n => ?_, fun st i => ?_, by decide, by decide, by decide, by decide,
    fun st s => rfl, fun st lang => rfl, fun st sb => rfl,
    fun st page => ⟨rfl, rfl, rfl⟩⟩
  · constructor
    · simp only [totalPages, itemsPerPage]
      omega
    · intro m hm
      simp only [itemsPerPage] at hm
      simp only [totalPages, itemsPerPage]
      omega
  · simp only [projectsToShow, List.getElem?_take, List.getElem?_drop]

/-- Sum accumulation as in `Array.prototype.reduce` equals the sum of the
mapped list. -/
theorem foldl_add_eq_sum (f : Project → Nat) (l : List Project) (n : Nat) :
    l.foldl (fun sum p => sum + f p) n = n + (l.map f).sum := by
  induction l generalizing n with
  | nil => simp
  | cons a l ih => simp [ih]; omega

/-- Claim C5: every recomputation of the view updates the aggregate
statistics from the full, unfiltered collection: the statistics rendered
after `filterAndRender` are `updateStats` of the original collection
(first conjunct); they do not depend on the filtered list or the page
(second conjunct); and they are the record count, the sum of stars, the
sum of forks and the number of distinct non-empty languages of the
unfiltered collection (remaining conjuncts). -/
theorem c5_stats_unfiltered (st : TrackerState) :
    renderedStats (filterAndRender st) = updateStats st.projects ∧
    (∀ old page, renderedStats
        { st with filteredProjects := old, currentPage := page }
      = renderedStats st) ∧
    (updateStats st.projects).totalProjects = st.projects.length ∧
    (updateStats st.projects).totalStars
      = (st.projects.map (fun p => p.stars)).sum ∧
    (updateStats st.projects).totalForks
      = (st.projects.map (fun p => p.forks)).sum ∧
    (updateStats st.projects).totalLanguages
      = ((st.projects.map (fun p => p.language)).toFinset.erase "").card := by
  refine ⟨rfl, fun old page => rfl, rfl, ?_, ?_, ?_⟩
  · simpa [updateStats] using foldl_add_eq_sum (fun p => p.stars) st.projects 0
  · simpa [updateStats] using foldl_add_eq_sum (fun p => p.forks) st.projects 0
  · simp only [updateStats, ← List.card_toFinset, List.toFinset_filter]
    congr 1
    ext x
    simp [and_comm]

/-- The comparator of an unrecognized sort key is the `default` arm, which
coincides with the "stars" arm. -/
theorem sortCompare_default (sb : String) (h1 : sb ≠ "stars") (h2 : sb ≠ "forks")
    (h3 : sb ≠ "name") (h4 : sb ≠ "author") (h5 : sb ≠ "latest")
    (h6 : sb ≠ "created") : sortCompare sb = sortCompare "stars" := by
  funext a b
  simp [sortCompare, h1, h2, h3, h4, h5, h6]

/-- Claim C6: a sort key outside the six recognized values makes
`filterProjects` produce exactly the output it produces with sort key
"stars", the rest of the filter state unchanged. -/
theorem c6_unrecognized_sortBy (st : TrackerState)
    (h : st.currentFilters.sortBy ∉
      (["stars", "forks", "name", "author", "latest", "created"] : List String)) :
    (filterProjects st).filteredProjects
      = (filterProjects { st with currentFilters :=
          { st.currentFilters with sortBy := "stars" } }).filteredProjects := by
  simp only [List.mem_cons, List.not_mem_nil, or_false, not_or] at h
  obtain ⟨h1, h2, h3, h4, h5, h6⟩ := h
  simp only [filterProjects]
  rw [sortCompare_default _ h1 h2 h3 h4 h5 h6]

/-- Witness for C6, with the unrecognized sort key "banana". -/
theorem c6_unrecognized_sortBy_witness :
    (unknownSortState.currentFilters.sortBy ∉
        (["stars", "forks", "name", "author", "latest", "created"] : List String)) ∧
      (filterProjects unknownSortState).filteredProjects
        = (filterProjects { unknownSortState with currentFilters :=
            { unknownSortState.currentFilters with sortBy := "stars" } }).filteredProjects :=
  ⟨by decide, c6_unrecognized_sortBy unknownSortState (by decide)⟩

/-- Claim C8: `loadProjects` has a single degenerate result for every way
of failing to obtain the JSON artifact — a rejected fetch, a non-ok
response (whatever its body), a response whose body is not valid JSON, and
a valid document without a `projects` field all leave the collection equal
to the empty array, with no distinction between them; only an ok response
with a `projects` array yields that array. -/
theorem c8_load_failure_empty :
    loadProjects .fetchError = [] ∧
    (∀ body, loadProjects (.response false body) = []) ∧
    loadProjects (.response true .malformed) = [] ∧
    loadProjects (.response true (.valid none)) = [] ∧
    (∀ ps, loadProjects (.response true (.valid (some ps))) = ps) :=
  ⟨rfl, fun _ => rfl, rfl, rfl, fun _ => rfl⟩

/-- Claim C10: below one billion the card-level formatter agrees with the
shared utility formatter at its default precision:
`formatNumber num = NumberUtils.format num 1`. -/
theorem c10_formatNumber_refines (num : Nat) (h : num < 1000000000) :
    formatNumber num = NumberUtils.format (some num) 1 := by
  have h9 : ¬ num ≥ 1000000000 := by omega
  simp only [NumberUtils.format, if_neg h9, formatNumber]

/-- Witness for C10 at the concrete input 1234 (both sides are "1.2K"). -/
theorem c10_formatNumber_refines_witness :
    1234 < 1000000000 ∧ formatNumber 1234 = NumberUtils.format (some 1234) 1 :=
  ⟨by decide, c10_formatNumber_refines 1234 (by decide)⟩

end NXProjectsTracker
